import Mathlib

/-!
Verification of the mssql-mcp Query Safety Gateway and Schema Introspection Engine.

Shallow embedding of the TypeScript sources (`SQLValidator`, `DatabaseConnection`,
`SchemaAnalyzer`, `MCPHandlers`) in Lean 4, together with proofs about the
spec-level claims.

Strings are modelled by Lean `String` (logically a packed `List Char`); the
JavaScript string methods used by the source (`trim`, `toUpperCase`,
`startsWith`, `includes`, `substring`, `replace` with a character-class regex)
are modelled by structurally recursive functions over `List Char`.  JavaScript
`toUpperCase`/`toLowerCase` are modelled by `Char.toUpper`/`Char.toLower`,
which agree with them on the basic-latin range that the validator's keyword
tables live in.  JavaScript dynamic values are modelled by `JSValue`; the
host-defined numeric primitives (`Number(string)` string-to-number conversion
and `Date.parse`) are taken as explicit function parameters, so every theorem
below is proved for an arbitrary host implementation of those primitives.
-/

namespace MssqlMcp

/-- JavaScript whitespace test used by `trim` and by the `\s` regex class,
modelled by `Char.isWhitespace` (space, tab, carriage return, newline). -/
def ws (c : Char) : Bool := c.isWhitespace

/-- Model of JavaScript `String.prototype.trim`: drop whitespace from both ends. -/
def jsTrim (l : List Char) : List Char :=
  ((l.dropWhile ws).reverse.dropWhile ws).reverse

/-- Model of JavaScript `String.prototype.toUpperCase` (basic-latin range). -/
def jsToUpper (l : List Char) : List Char := l.map Char.toUpper

/-- Model of JavaScript `String.prototype.toLowerCase` (basic-latin range). -/
def jsToLower (l : List Char) : List Char := l.map Char.toLower

/-- Model of JavaScript `String.prototype.startsWith`. -/
def jsStartsWith (p l : List Char) : Bool := p.isPrefixOf l

/-- Model of JavaScript `String.prototype.includes`: scan every position for a
prefix match of `sub`. -/
def jsIncludes (sub : List Char) : List Char → Bool
  | [] => sub.isEmpty
  | c :: rest => sub.isPrefixOf (c :: rest) || jsIncludes sub rest

/-- First maximal run of non-whitespace characters after leading whitespace:
the "first non-whitespace token" of a text.  Used to state spec claims; the
source itself never computes tokens. -/
def firstToken (l : List Char) : List Char :=
  (l.dropWhile ws).takeWhile (fun c => !(ws c))

/-- Model of a JavaScript number: a finite value (modelled as a rational),
`NaN`, or a signed infinity. -/
inductive JSNum where
  | finite (q : Rat)
  | nan
  | posInf
  | negInf
deriving DecidableEq

/-- Model of a JavaScript runtime value as far as the validator observes it. -/
inductive JSValue where
  | null
  | undefined
  | bool (b : Bool)
  | num (n : JSNum)
  | str (s : String)
deriving DecidableEq

/-- Model of the JavaScript `Number(value)` conversion.  The string case is
the host's StringToNumber primitive, passed in as `strToNum`. -/
def jsNumber (strToNum : String → JSNum) : JSValue → JSNum
  | JSValue.null => JSNum.finite 0
  | JSValue.undefined => JSNum.nan
  | JSValue.bool b => JSNum.finite (if b then 1 else 0)
  | JSValue.num n => n
  | JSValue.str s => strToNum s

/-- Model of JavaScript `Number.isInteger`. -/
def isIntegerNum : JSNum → Bool
  | JSNum.finite q => q.den == 1
  | _ => false

/-- Model of JavaScript `isNaN` on an already-converted number. -/
def isNaNNum : JSNum → Bool
  | JSNum.nan => true
  | _ => false

/-- Model of JavaScript `typeof value === 'string'`. -/
def isStringValue : JSValue → Bool
  | JSValue.str _ => true
  | _ => false

/-- Model of JavaScript `typeof value === 'boolean'`. -/
def isBoolValue : JSValue → Bool
  | JSValue.bool _ => true
  | _ => false

/-- Model of JavaScript truthiness ("falsy" values). -/
def jsFalsy : JSValue → Bool
  | JSValue.null => true
  | JSValue.undefined => true
  | JSValue.bool b => !b
  | JSValue.num n => n = JSNum.finite 0 || n = JSNum.nan
  | JSValue.str s => s.isEmpty

namespace SQLValidator

/-- Embedding of `SQLValidator.DANGEROUS_KEYWORDS` from `src/utils/validation.ts`. -/
def DANGEROUS_KEYWORDS : List String :=
  ["DROP", "DELETE", "TRUNCATE", "ALTER", "CREATE", "INSERT", "UPDATE",
   "EXEC", "EXECUTE", "SP_", "XP_", "SHUTDOWN", "KILL"]

/-- Embedding of `SQLValidator.isReadOnlyQuery`: normalize with `trim().toUpperCase()`,
reject if any dangerous keyword occurs as a substring, otherwise accept iff
the normalized text starts with `SELECT` or `WITH`. -/
def isReadOnlyQuery (query : String) : Bool :=
  let normalizedQuery := jsToUpper (jsTrim query.toList)
  if DANGEROUS_KEYWORDS.any (fun keyword => jsIncludes keyword.toList normalizedQuery) then
    false
  else
    jsStartsWith "SELECT".toList normalizedQuery || jsStartsWith "WITH".toList normalizedQuery

/-- Character class `[a-zA-Z0-9_.]` of the `sanitizeIdentifier` regex. -/
def isIdentChar (c : Char) : Bool := c.isAlpha || c.isDigit || c = '_' || c = '.'

/-- Embedding of `SQLValidator.sanitizeIdentifier`: `identifier.replace(/[^a-zA-Z0-9_\.]/g, '').substring(0, 128)`. -/
def sanitizeIdentifier (identifier : String) : String :=
  ((identifier.toList.filter isIdentChar).take 128).asString

/-- The verb alternatives of the `/;\s*(DROP|DELETE|TRUNCATE|ALTER|CREATE|INSERT|UPDATE)/i` pattern. -/
def dangerousVerbs : List String :=
  ["DROP", "DELETE", "TRUNCATE", "ALTER", "CREATE", "INSERT", "UPDATE"]

/-- Position test for `/;\s*(DROP|...)/i` on uppercased text: a semicolon, then
any amount of whitespace, then one of the verbs. -/
def semicolonVerbAt : List Char → Bool
  | ';' :: rest => dangerousVerbs.any (fun v => v.toList.isPrefixOf (rest.dropWhile ws))
  | _ => false

/-- Position test for `/UNION\s+SELECT/i` on uppercased text: `UNION`, at least
one whitespace character, then `SELECT`. -/
def unionSelectAt (l : List Char) : Bool :=
  "UNION".toList.isPrefixOf l &&
    (match l.drop 5 with
     | c :: rest => ws c && "SELECT".toList.isPrefixOf ((c :: rest).dropWhile ws)
     | [] => false)

/-- Position test for `/EXEC\s*\(/i` on uppercased text. -/
def execParenAt (l : List Char) : Bool :=
  "EXEC".toList.isPrefixOf l &&
    (match (l.drop 4).dropWhile ws with
     | '(' :: _ => true
     | _ => false)

/-- Position test for `/EXECUTE\s*\(/i` on uppercased text. -/
def executeParenAt (l : List Char) : Bool :=
  "EXECUTE".toList.isPrefixOf l &&
    (match (l.drop 7).dropWhile ws with
     | '(' :: _ => true
     | _ => false)

/-- Regex-search driver: test a position predicate at every suffix. -/
def scanPos (p : List Char → Bool) : List Char → Bool
  | [] => p []
  | c :: rest => p (c :: rest) || scanPos p rest

/-- Embedding of `SQLValidator.hasSQLInjectionPatterns`.  The case-insensitive regex
searches are modelled by matching uppercase patterns on the uppercased text;
the comment-marker and `xp_`/`sp_` patterns are plain substring searches. -/
def hasSQLInjectionPatterns (query : String) : Bool :=
  let u := jsToUpper query.toList
  scanPos semicolonVerbAt u ||
  scanPos unionSelectAt u ||
  jsIncludes "--".toList u ||
  jsIncludes "/*".toList u ||
  jsIncludes "*/".toList u ||
  jsIncludes "XP_".toList u ||
  jsIncludes "SP_".toList u ||
  scanPos execParenAt u ||
  scanPos executeParenAt u

/-- Embedding of `SQLValidator.isValidQueryLength` (the source defaults `maxLength` to 10000;
the only caller passes the default). -/
def isValidQueryLength (query : String) (maxLength : Nat) : Bool :=
  query.length ≤ maxLength

/-- The integer-family `case` labels of `validateParameter` (after `toLowerCase`). -/
def intFamilyTypes : List String := ["int", "bigint", "smallint", "tinyint"]

/-- The decimal-family `case` labels of `validateParameter`. -/
def decimalFamilyTypes : List String :=
  ["decimal", "numeric", "float", "real", "money", "smallmoney"]

/-- The string-family `case` labels of `validateParameter`. -/
def stringFamilyTypes : List String :=
  ["varchar", "nvarchar", "char", "nchar", "text", "ntext"]

/-- The date/time-family `case` labels of `validateParameter`. -/
def dateFamilyTypes : List String :=
  ["datetime", "datetime2", "smalldatetime", "date", "time"]

/-- Every `case` label of the `validateParameter` switch. -/
def knownDataTypes : List String :=
  intFamilyTypes ++ decimalFamilyTypes ++ stringFamilyTypes ++ dateFamilyTypes ++ ["bit"]

/-- Embedding of `SQLValidator.validateParameter`.  The `switch` on `dataType.toLowerCase()`
with fall-through case groups is modelled by membership tests against the case
label lists.  `strToNum` models the host's string-to-number conversion inside
`Number(value)`; `dateParse` models `Date.parse(value)`. -/
def validateParameter (strToNum : String → JSNum) (dateParse : JSValue → JSNum)
    (value : JSValue) (dataType : String) : Bool :=
  if value = JSValue.null ∨ value = JSValue.undefined then
    true
  else
    let dt := (jsToLower dataType.toList).asString
    if dt ∈ intFamilyTypes then
      isIntegerNum (jsNumber strToNum value)
    else if dt ∈ decimalFamilyTypes then
      !(isNaNNum (jsNumber strToNum value))
    else if dt ∈ stringFamilyTypes then
      isStringValue value
    else if dt ∈ dateFamilyTypes then
      !(isNaNNum (dateParse value))
    else if dt = "bit" then
      isBoolValue value || value = JSValue.num (JSNum.finite 0) ||
        value = JSValue.num (JSNum.finite 1)
    else
      true

/-- Shape of the record returned by `validateQuery` (`ValidationResult`). -/
structure ValidationResult where
  isValid : Bool
  errors : List String
deriving DecidableEq

/-- Embedding of `SQLValidator.validateQuery`: accumulate one error per failed check;
`isValid` iff the error list is empty. -/
def validateQuery (query : String) (allowWriteOperations : Bool) : ValidationResult :=
  let errors :=
    (if !(isValidQueryLength query 10000) then ["Query exceeds maximum allowed length"] else []) ++
    (if hasSQLInjectionPatterns query then ["Query contains potentially dangerous patterns"] else []) ++
    (if !allowWriteOperations && !(isReadOnlyQuery query) then ["Only read-only queries are allowed"] else [])
  { isValid := errors.isEmpty, errors := errors }

end SQLValidator

/-- Record `ColumnInfo` from `src/mcp/types.ts`. -/
structure ColumnInfo where
  columnName : String
  dataType : String
  maxLength : Option Nat
  isNullable : Bool
  defaultValue : Option String
  isIdentity : Bool
  isPrimaryKey : Bool
  ordinalPosition : Nat
deriving DecidableEq

/-- Record `ForeignKeyInfo` from `src/mcp/types.ts`. -/
structure ForeignKeyInfo where
  constraintName : String
  columnName : String
  referencedTable : String
  referencedColumn : String
  referencedSchema : String
deriving DecidableEq

/-- Record `IndexInfo` from `src/mcp/types.ts`. -/
structure IndexInfo where
  indexName : String
  columnName : String
  isUnique : Bool
  isPrimaryKey : Bool
  indexType : String
deriving DecidableEq

/-- Record `TableSchema` from `src/mcp/types.ts`. -/
structure TableSchema where
  tableName : String
  schema : String
  columns : List ColumnInfo
  primaryKeys : List String
  foreignKeys : List ForeignKeyInfo
  indexes : List IndexInfo
deriving DecidableEq

/-- Shape of the `options` field of `DatabaseConfig` (`src/mcp/types.ts`). -/
structure ConnOptions where
  encrypt : Bool
  trustServerCertificate : Bool
deriving DecidableEq

/-- Shape of the `pool` bounds field of `DatabaseConfig` (`src/mcp/types.ts`). -/
structure PoolBounds where
  min : Nat
  max : Nat
deriving DecidableEq

/-- Record `DatabaseConfig` from `src/mcp/types.ts`. -/
structure DatabaseConfig where
  server : String
  port : Nat
  database : String
  user : String
  password : String
  options : ConnOptions
  pool : Option PoolBounds
  connectionTimeout : Option Nat
  requestTimeout : Option Nat
deriving DecidableEq

/-- State of one `mssql` connection pool object as the source observes it:
an identity (so that "no second pool is created" is expressible) and the
driver's `connected` flag. -/
structure PoolState where
  id : Nat
  connected : Bool
deriving DecidableEq

namespace DatabaseConnection

/-- The observable state of a `DatabaseConnection` object
(`src/db/connection.ts`): its stored `config` and its `pool` field
(`null` or a pool object). -/
structure Instance where
  config : DatabaseConfig
  pool : Option PoolState
deriving DecidableEq

/-- Embedding of `DatabaseConnection.getInstance`: the module-level static `instance`
variable is threaded explicitly.  A fresh instance is constructed (with a
`null` pool) only when the static variable is unset; otherwise the stored
instance is returned and the argument `config` is not consulted. -/
def getInstance (config : DatabaseConfig) (instanceVar : Option Instance) :
    Instance × Option Instance :=
  match instanceVar with
  | none =>
    let inst : Instance := { config := config, pool := none }
    (inst, some inst)
  | some inst => (inst, some inst)

/-- Embedding of `DatabaseConnection.connect`.  Here `freshPoolId` identifies the pool object a
call would construct (`new sql.ConnectionPool(...)`); `connectOutcome` is the
result of the driver's `pool.connect()` handshake.  Returns the thrown/normal
outcome together with the updated object state.  Note the source assigns
`this.pool` before awaiting the handshake, so even a failed connect replaces
the pool field. -/
def connect (inst : Instance) (freshPoolId : Nat) (connectOutcome : Except String Unit) :
    Except String Unit × Instance :=
  if (inst.pool.map (fun p => p.connected)).getD false then
    (Except.ok (), inst)
  else
    match connectOutcome with
    | Except.ok _ =>
      (Except.ok (), { inst with pool := some { id := freshPoolId, connected := true } })
    | Except.error e =>
      (Except.error e, { inst with pool := some { id := freshPoolId, connected := false } })

end DatabaseConnection

/-- A result-set row: field name to value. -/
abbrev Row := List (String × JSValue)

/-- The parts of the driver's `sql.IResult` that the handlers read. -/
structure SqlResultSet where
  recordset : List Row
  rowsAffected : List Nat
deriving DecidableEq

namespace SchemaAnalyzer

/-- Embedding of `SchemaAnalyzer.getTableSchema` (`src/db/schema.ts`).  The four metadata
sub-queries (`getTableColumns`, `getPrimaryKeys`, `getForeignKeys`,
`getIndexes`) are database round-trips; their outcomes are passed in as
`Except` values (`Except.error` = the promise rejected).  `Promise.all` fails
iff any sub-query fails, and the surrounding `try/catch` turns that failure
into `null`; otherwise the combined record is assembled from the four result
lists, however empty they are. -/
def getTableSchema (tableName schemaName : String)
    (columnsResult : Except String (List ColumnInfo))
    (primaryKeysResult : Except String (List String))
    (foreignKeysResult : Except String (List ForeignKeyInfo))
    (indexesResult : Except String (List IndexInfo)) : Option TableSchema :=
  match columnsResult, primaryKeysResult, foreignKeysResult, indexesResult with
  | Except.ok columns, Except.ok primaryKeys, Except.ok foreignKeys, Except.ok indexes =>
    some { tableName := tableName, schema := schemaName, columns := columns,
           primaryKeys := primaryKeys, foreignKeys := foreignKeys, indexes := indexes }
  | _, _, _, _ => none

end SchemaAnalyzer

/-- Error codes of the MCP SDK used by the handlers. -/
inductive ErrorCode where
  | InvalidParams
  | InternalError
  | MethodNotFound
deriving DecidableEq

/-- An `McpError` as thrown by the handlers. -/
structure McpError where
  code : ErrorCode
  message : String
deriving DecidableEq

namespace MCPHandlers

/-- The argument record of the `execute_query` tool.  `query` is absent or an
arbitrary runtime value; `parameters` defaults to the empty record;
`allowWriteOperations` is absent or a boolean. -/
structure ExecuteQueryArgs where
  query : Option JSValue
  parameters : List (String × JSValue)
  allowWriteOperations : Option Bool

/-- The success payload `executeQuery` serializes into its response. -/
structure ExecuteQueryResult where
  success : Bool
  recordset : List Row
  rowsAffected : List Nat
  recordCount : Nat
deriving DecidableEq

/-- Embedding of `MCPHandlers.executeQuery` (`src/mcp/handlers.ts`).  Here `db` is the Connection
Gateway's `executeQuery`; the second component of the result is the list of
gateway calls performed (query text and bound parameters), so "no database
round-trip" is the statement that this list is empty.  Thrown `McpError`s are
the `Except.error` case. -/
def executeQuery (strToNum : String → JSNum) (dateParse : JSValue → JSNum)
    (db : String → List (String × JSValue) → Except String SqlResultSet)
    (args : ExecuteQueryArgs) :
    Except McpError ExecuteQueryResult × List (String × List (String × JSValue)) :=
  let queryVal := args.query.getD JSValue.undefined
  if jsFalsy queryVal || !(isStringValue queryVal) then
    (Except.error { code := ErrorCode.InvalidParams,
                    message := "Query parameter is required and must be a string" }, [])
  else
    match queryVal with
    | JSValue.str query =>
      let allowWriteOperations := args.allowWriteOperations.getD false
      let validation := SQLValidator.validateQuery query allowWriteOperations
      if !validation.isValid then
        (Except.error { code := ErrorCode.InvalidParams,
                        message := "Query validation failed: " ++
                          String.intercalate ", " validation.errors }, [])
      else
        match args.parameters.find?
            (fun kv => !(SQLValidator.validateParameter strToNum dateParse kv.2 "varchar")) with
        | some kv =>
          (Except.error { code := ErrorCode.InvalidParams,
                          message := "Invalid parameter value for " ++ kv.1 }, [])
        | none =>
          match db query args.parameters with
          | Except.ok result =>
            (Except.ok { success := true, recordset := result.recordset,
                         rowsAffected := result.rowsAffected,
                         recordCount := result.recordset.length },
             [(query, args.parameters)])
          | Except.error e =>
            (Except.error { code := ErrorCode.InternalError,
                            message := "Query execution failed: " ++ e },
             [(query, args.parameters)])
    | _ =>
      (Except.error { code := ErrorCode.InvalidParams,
                      message := "Query parameter is required and must be a string" }, [])

/-- The in-band payload `testConnection` serializes into its response (the
source emits `error` only on the failure object and `testResult` only on the
success object; absent JSON fields are `none`). -/
structure TestConnectionResult where
  success : Bool
  connected : Bool
  message : String
  testResult : Option Row
  error : Option String
deriving DecidableEq

/-- Embedding of `MCPHandlers.testConnection`.  Here `isConnected` is the gateway's connection
flag, `connectOutcome` the result of `db.connect()`, `queryOutcome` the result
of `db.executeQuery('SELECT 1 as test_connection')`.  The whole body is inside
`try/catch`, so every failure is converted to a normal result; the return type
still carries `Except McpError` to make "never throws" expressible. -/
def testConnection (isConnected : Bool) (connectOutcome : Except String Unit)
    (queryOutcome : Except String SqlResultSet) : Except McpError TestConnectionResult :=
  let attempt : Except String SqlResultSet :=
    if isConnected then queryOutcome
    else
      match connectOutcome with
      | Except.ok _ => queryOutcome
      | Except.error e => Except.error e
  match attempt with
  | Except.ok result =>
    Except.ok { success := true, connected := true,
                message := "Database connection is healthy",
                testResult := result.recordset.head?, error := none }
  | Except.error e =>
    Except.ok { success := false, connected := false,
                message := "Database connection failed",
                testResult := none, error := some e }

end MCPHandlers

/-- A concrete configuration, used only to instantiate closed witness
statements. -/
def sampleConfig : DatabaseConfig :=
  { server := "localhost", port := 1433, database := "master", user := "sa",
    password := "pw", options := { encrypt := true, trustServerCertificate := true },
    pool := none, connectionTimeout := none, requestTimeout := none }

/-! ## Helper lemmas about the JavaScript string models -/

theorem jsIncludes_iff (sub l : List Char) : jsIncludes sub l = true ↔ sub <:+: l := by
  induction l with
  | nil => simp [jsIncludes]
  | cons c rest ih =>
    simp [jsIncludes, ih, List.infix_cons_iff]

theorem jsStartsWith_iff (p l : List Char) : jsStartsWith p l = true ↔ p <+: l := by
  simp [jsStartsWith]

/-- A whitespace-free substring survives dropping leading whitespace. -/
theorem noWs_infix_dropWhile {sub l : List Char} (hws : ∀ c ∈ sub, ws c = false)
    (h : sub <:+: l) : sub <:+: l.dropWhile ws := by
  induction l with
  | nil => simpa using h
  | cons a t ih =>
    by_cases ha : ws a = true
    · rw [List.dropWhile_cons, if_pos ha]
      rcases List.infix_cons_iff.mp h with hpre | hinf
      · cases sub with
        | nil => exact List.nil_infix
        | cons b s =>
          rcases List.cons_prefix_cons.mp hpre with ⟨rfl, _⟩
          exact absurd ha (by simp [hws b (List.mem_cons_self b s)])
      · exact ih hinf
    · rw [List.dropWhile_cons, if_neg ha]
      exact h

/-- A whitespace-free substring survives `trim`.  -/
theorem noWs_infix_jsTrim {sub l : List Char} (hws : ∀ c ∈ sub, ws c = false)
    (h : sub <:+: l) : sub <:+: jsTrim l := by
  unfold jsTrim
  have h1 : sub <:+: l.dropWhile ws := noWs_infix_dropWhile hws h
  have h2 : sub.reverse <:+: (l.dropWhile ws).reverse := List.reverse_infix.mpr h1
  have h3 : sub.reverse <:+: ((l.dropWhile ws).reverse).dropWhile ws :=
    noWs_infix_dropWhile (fun c hc => hws c (List.mem_reverse.mp hc)) h2
  have h4 := List.reverse_infix.mpr h3
  simpa using h4

/-- Uppercasing does not change whether a character is whitespace. -/
theorem isWhitespace_toUpper (c : Char) : (Char.toUpper c).isWhitespace = c.isWhitespace := by
  by_cases h : c.isWhitespace = true
  · have hc : ((c = ' ' ∨ c = '\t') ∨ c = '\r') ∨ c = '\n' := by
      simpa [Char.isWhitespace] using h
    rcases hc with ((rfl | rfl) | rfl) | rfl <;> decide
  · simp only [Char.toUpper]
    split
    next hle =>
      rw [Bool.eq_false_iff.mpr h]
      obtain ⟨h1, h2⟩ := hle
      have h3 : 65 ≤ Char.toNat c - 32 := by omega
      have h4 : Char.toNat c - 32 ≤ 90 := by omega
      generalize Char.toNat c - 32 = n at h3 h4 ⊢
      interval_cases n <;> decide
    next => rfl

/-- Uppercasing commutes with trimming. -/
theorem jsToUpper_jsTrim (l : List Char) : jsToUpper (jsTrim l) = jsTrim (jsToUpper l) := by
  have hfun : (ws ∘ Char.toUpper) = ws := funext fun c => by
    simp [ws, Function.comp, isWhitespace_toUpper]
  unfold jsToUpper jsTrim
  rw [List.dropWhile_map, hfun, ← List.map_reverse, List.dropWhile_map, hfun, ← List.map_reverse]

/-! ## Claim theorems -/

/-- C1 (counterexample): the claim "for every query string whose first
non-whitespace token (compared case-insensitively) is not SELECT and not WITH,
`isReadOnlyQuery` returns false" is false on the code: `"WITHOUT"` has first
token `WITHOUT`, which is neither `SELECT` nor `WITH`, yet `isReadOnlyQuery`
accepts it, because the source tests `startsWith`, a prefix test, not a token
comparison. -/
theorem isReadOnlyQuery_first_token_counterexample :
    SQLValidator.isReadOnlyQuery "WITHOUT" = true ∧
    jsToUpper (firstToken "WITHOUT".toList) ≠ "SELECT".toList ∧
    jsToUpper (firstToken "WITHOUT".toList) ≠ "WITH".toList := by
  refine ⟨?_, ?_, ?_⟩ <;> decide

/-- C1 (amended): `isReadOnlyQuery` returns true iff the trimmed, uppercased
text starts with the prefix `SELECT` or the prefix `WITH` (not: has first
token `SELECT`/`WITH`) and no dangerous keyword occurs in it as a substring;
in particular it returns false whenever the trimmed, uppercased text does not
start with one of those prefixes. -/
theorem isReadOnlyQuery_iff (q : String) :
    SQLValidator.isReadOnlyQuery q = true ↔
      ((∀ kw ∈ SQLValidator.DANGEROUS_KEYWORDS,
          ¬ (kw.toList <:+: jsToUpper (jsTrim q.toList))) ∧
       ("SELECT".toList <+: jsToUpper (jsTrim q.toList) ∨
        "WITH".toList <+: jsToUpper (jsTrim q.toList))) := by
  unfold SQLValidator.isReadOnlyQuery
  by_cases h : SQLValidator.DANGEROUS_KEYWORDS.any
      (fun keyword => jsIncludes keyword.toList (jsToUpper (jsTrim q.toList))) = true
  · rw [if_pos h]
    constructor
    · intro hf; exact absurd hf (by simp)
    · rintro ⟨hall, -⟩
      rcases List.any_eq_true.mp h with ⟨kw, hmem, hinc⟩
      exact absurd ((jsIncludes_iff _ _).mp hinc) (hall kw hmem)
  · rw [if_neg h]
    have hall : ∀ kw ∈ SQLValidator.DANGEROUS_KEYWORDS,
        ¬ (kw.toList <:+: jsToUpper (jsTrim q.toList)) := by
      intro kw hmem hinf
      exact h (List.any_eq_true.mpr ⟨kw, hmem, (jsIncludes_iff _ _).mpr hinf⟩)
    constructor
    · intro hb
      exact ⟨hall, by simpa [jsStartsWith, Bool.or_eq_true] using hb⟩
    · rintro ⟨-, hpre⟩
      simpa [jsStartsWith, Bool.or_eq_true] using hpre

/-- C1 (witness for the amended theorem): applying it to `"SELECT 1"`. -/
theorem isReadOnlyQuery_iff_witness :
    SQLValidator.isReadOnlyQuery "SELECT 1" = true :=
  (isReadOnlyQuery_iff "SELECT 1").mpr ⟨by decide, Or.inl (by decide)⟩

/-- C2: `execute_query` with query `"DROP TABLE users"` and
`allowWriteOperations` absent (defaulting to false) produces an
`InvalidParams` error, with an empty gateway-call list — zero calls to the
Connection Gateway's `executeQuery`, for every gateway behavior `db` and every
host primitive. -/
theorem executeQuery_drop_table_rejected (strToNum : String → JSNum)
    (dateParse : JSValue → JSNum)
    (db : String → List (String × JSValue) → Except String SqlResultSet) :
    MCPHandlers.executeQuery strToNum dateParse db
      { query := some (JSValue.str "DROP TABLE users"), parameters := [],
        allowWriteOperations := none } =
    (Except.error { code := ErrorCode.InvalidParams,
                    message := "Query validation failed: Only read-only queries are allowed" },
     []) := rfl

/-- C3: any query containing a dangerous keyword as a substring of its
uppercased text is rejected by `validateQuery(_, false)` with a non-empty
error list. -/
theorem validateQuery_dangerous_keyword (q kw : String)
    (hkw : kw ∈ SQLValidator.DANGEROUS_KEYWORDS)
    (hsub : kw.toList <:+: jsToUpper q.toList) :
    (SQLValidator.validateQuery q false).isValid = false ∧
    (SQLValidator.validateQuery q false).errors ≠ [] := by
  have hws : ∀ c ∈ kw.toList, ws c = false := by
    fin_cases hkw <;> decide
  have h1 : kw.toList <:+: jsToUpper (jsTrim q.toList) := by
    rw [jsToUpper_jsTrim]
    exact noWs_infix_jsTrim hws hsub
  have hro : SQLValidator.isReadOnlyQuery q = false := by
    unfold SQLValidator.isReadOnlyQuery
    rw [if_pos (List.any_eq_true.mpr ⟨kw, hkw, (jsIncludes_iff _ _).mpr h1⟩)]
  have herr : (SQLValidator.validateQuery q false).errors ≠ [] := by
    simp only [SQLValidator.validateQuery, hro, Bool.not_false, Bool.and_self, if_true]
    intro hnil
    rcases List.append_eq_nil.mp hnil with ⟨-, hC⟩
    simp at hC
  refine ⟨?_, herr⟩
  have hv : (SQLValidator.validateQuery q false).isValid =
      (SQLValidator.validateQuery q false).errors.isEmpty := rfl
  rw [hv]
  exact List.isEmpty_eq_false.mpr herr

/-- C3 (witness): the spec's own example, `"SELECT * FROM t; DROP TABLE t"`
with keyword `DROP`. -/
theorem validateQuery_dangerous_keyword_witness :
    "DROP" ∈ SQLValidator.DANGEROUS_KEYWORDS ∧
    (SQLValidator.validateQuery "SELECT * FROM t; DROP TABLE t" false).isValid = false ∧
    (SQLValidator.validateQuery "SELECT * FROM t; DROP TABLE t" false).errors ≠ [] := by
  refine ⟨by decide, ?_⟩
  exact validateQuery_dangerous_keyword "SELECT * FROM t; DROP TABLE t" "DROP"
    (by decide) ((jsIncludes_iff _ _).mp (by decide))

/-- C4 (code-bug evidence): calling `execute_query` with the spec scenario's
input — query `"SELECT * FROM users WHERE id = @id"`, parameters `{id: 1}`,
`allowWriteOperations` omitted — does NOT succeed: the handler validates every
parameter against the hard-coded declared type `'varchar'`, the numeric value
`1` is not a string, and the call is rejected with `InvalidParams` before any
gateway call, for every gateway behavior and every host primitive. -/
theorem executeQuery_numeric_parameter_rejected (strToNum : String → JSNum)
    (dateParse : JSValue → JSNum)
    (db : String → List (String × JSValue) → Except String SqlResultSet) :
    MCPHandlers.executeQuery strToNum dateParse db
      { query := some (JSValue.str "SELECT * FROM users WHERE id = @id"),
        parameters := [("id", JSValue.num (JSNum.finite 1))],
        allowWriteOperations := none } =
    (Except.error { code := ErrorCode.InvalidParams,
                    message := "Invalid parameter value for id" }, []) := rfl

/-- C5 (code-bug evidence): when the table does not exist — all four metadata
sub-queries resolve with empty result sets and nothing throws —
`getTableSchema` does NOT return absent: it returns a populated `TableSchema`
record with empty column/key/index lists. -/
theorem getTableSchema_missing_table_returns_record :
    SchemaAnalyzer.getTableSchema "missing_table" "dbo"
      (Except.ok []) (Except.ok []) (Except.ok []) (Except.ok []) =
      some { tableName := "missing_table", schema := "dbo", columns := [],
             primaryKeys := [], foreignKeys := [], indexes := [] } ∧
    SchemaAnalyzer.getTableSchema "missing_table" "dbo"
      (Except.ok []) (Except.ok []) (Except.ok []) (Except.ok []) ≠ none :=
  ⟨rfl, by decide⟩

/-- C6: `sanitizeIdentifier` keeps only characters in `[A-Za-z0-9_.]`, yields
at most 128 characters, is exactly filter-then-truncate, and maps the empty
string to the empty string (it is total, hence never fails). -/
theorem sanitizeIdentifier_spec :
    (∀ s : String, ∀ c ∈ (SQLValidator.sanitizeIdentifier s).toList,
        SQLValidator.isIdentChar c = true) ∧
    (∀ s : String, (SQLValidator.sanitizeIdentifier s).length ≤ 128) ∧
    (∀ s : String, SQLValidator.sanitizeIdentifier s =
        ((s.toList.filter SQLValidator.isIdentChar).take 128).asString) ∧
    SQLValidator.sanitizeIdentifier "" = "" := by
  refine ⟨?_, ?_, fun s => rfl, rfl⟩
  · intro s c hc
    have hc2 : c ∈ (s.toList.filter SQLValidator.isIdentChar).take 128 := hc
    exact (List.mem_filter.mp (List.mem_of_mem_take hc2)).2
  · intro s
    have hl : (SQLValidator.sanitizeIdentifier s).length =
        ((s.toList.filter SQLValidator.isIdentChar).take 128).length := rfl
    rw [hl]
    exact List.length_take_le 128 _

/-- C6 (witness): applying the specification to the concrete identifier
`"ab; DROP--"`. -/
theorem sanitizeIdentifier_spec_witness :
    SQLValidator.isIdentChar 'a' = true ∧
    (SQLValidator.sanitizeIdentifier "ab; DROP--").length ≤ 128 :=
  ⟨sanitizeIdentifier_spec.1 "ab; DROP--" 'a' (by decide),
   sanitizeIdentifier_spec.2.1 "ab; DROP--"⟩

/-- C7: `validateParameter` accepts null/absent for every declared type; for
integer-family types it accepts exactly the values converting to an integral
number (in particular 3.14 is rejected and 3 accepted); for string-family
types it accepts exactly textual values; for `bit` it accepts exactly booleans
and the exact numbers 0 and 1; and every unknown declared type accepts any
value.  `stn`/`dp` range over arbitrary host string-to-number and date-parse
primitives. -/
theorem validateParameter_spec :
    (∀ (stn : String → JSNum) (dp : JSValue → JSNum) (t : String),
        SQLValidator.validateParameter stn dp JSValue.null t = true ∧
        SQLValidator.validateParameter stn dp JSValue.undefined t = true) ∧
    (∀ (stn : String → JSNum) (dp : JSValue → JSNum) (v : JSValue) (t : String),
        (jsToLower t.toList).asString ∈ SQLValidator.intFamilyTypes →
        v ≠ JSValue.null → v ≠ JSValue.undefined →
        (SQLValidator.validateParameter stn dp v t = true ↔
          isIntegerNum (jsNumber stn v) = true)) ∧
    (∀ (stn : String → JSNum) (dp : JSValue → JSNum),
        SQLValidator.validateParameter stn dp
          (JSValue.num (JSNum.finite (Rat.divInt 314 100))) "int" = false ∧
        SQLValidator.validateParameter stn dp (JSValue.num (JSNum.finite 3)) "int" = true ∧
        SQLValidator.validateParameter stn dp JSValue.null "bigint" = true) ∧
    (∀ (stn : String → JSNum) (dp : JSValue → JSNum) (v : JSValue) (t : String),
        (jsToLower t.toList).asString ∈ SQLValidator.stringFamilyTypes →
        v ≠ JSValue.null → v ≠ JSValue.undefined →
        (SQLValidator.validateParameter stn dp v t = true ↔ isStringValue v = true)) ∧
    (∀ (stn : String → JSNum) (dp : JSValue → JSNum) (v : JSValue),
        v ≠ JSValue.null → v ≠ JSValue.undefined →
        (SQLValidator.validateParameter stn dp v "bit" = true ↔
          (isBoolValue v = true ∨ v = JSValue.num (JSNum.finite 0) ∨
            v = JSValue.num (JSNum.finite 1)))) ∧
    (∀ (stn : String → JSNum) (dp : JSValue → JSNum) (v : JSValue) (t : String),
        (jsToLower t.toList).asString ∉ SQLValidator.knownDataTypes →
        SQLValidator.validateParameter stn dp v t = true) := by
  refine ⟨?_, ?_, ?_, ?_, ?_, ?_⟩
  · intro stn dp t
    constructor <;> simp [SQLValidator.validateParameter]
  · intro stn dp v t hmem hv1 hv2
    have hcond : ¬(v = JSValue.null ∨ v = JSValue.undefined) := by tauto
    simp only [SQLValidator.validateParameter, if_neg hcond]
    generalize (jsToLower t.toList).asString = dt at hmem ⊢
    fin_cases hmem <;>
      simp [SQLValidator.intFamilyTypes, SQLValidator.decimalFamilyTypes,
        SQLValidator.stringFamilyTypes, SQLValidator.dateFamilyTypes]
  · intro stn dp
    refine ⟨rfl, rfl, rfl⟩
  · intro stn dp v t hmem hv1 hv2
    have hcond : ¬(v = JSValue.null ∨ v = JSValue.undefined) := by tauto
    simp only [SQLValidator.validateParameter, if_neg hcond]
    generalize (jsToLower t.toList).asString = dt at hmem ⊢
    fin_cases hmem <;>
      simp [SQLValidator.intFamilyTypes, SQLValidator.decimalFamilyTypes,
        SQLValidator.stringFamilyTypes, SQLValidator.dateFamilyTypes]
  · intro stn dp v hv1 hv2
    have hcond : ¬(v = JSValue.null ∨ v = JSValue.undefined) := by tauto
    simp only [SQLValidator.validateParameter, if_neg hcond]
    simp +decide [or_assoc]
  · intro stn dp v t hmem
    by_cases hcond : v = JSValue.null ∨ v = JSValue.undefined
    · rcases hcond with rfl | rfl <;> simp [SQLValidator.validateParameter]
    · simp only [SQLValidator.knownDataTypes, List.mem_append, List.mem_singleton,
        not_or] at hmem
      obtain ⟨⟨⟨⟨h1, h2⟩, h3⟩, h4⟩, h5⟩ := hmem
      simp only [String.toList] at h1 h2 h3 h4 h5
      simp [SQLValidator.validateParameter, hcond, h1, h2, h3, h4, h5]

/-- C7 (witness): concrete instantiations of each clause, with a trivial host
model that maps every string and date to NaN. -/
theorem validateParameter_spec_witness :
    SQLValidator.validateParameter (fun _ => JSNum.nan) (fun _ => JSNum.nan)
      (JSValue.num (JSNum.finite (Rat.divInt 314 100))) "int" = false ∧
    SQLValidator.validateParameter (fun _ => JSNum.nan) (fun _ => JSNum.nan)
      (JSValue.str "x") "varchar" = true ∧
    SQLValidator.validateParameter (fun _ => JSNum.nan) (fun _ => JSNum.nan)
      (JSValue.bool true) "bit" = true ∧
    SQLValidator.validateParameter (fun _ => JSNum.nan) (fun _ => JSNum.nan)
      (JSValue.num JSNum.nan) "geography" = true := by
  refine ⟨(validateParameter_spec.2.2.1 _ _).1, ?_, ?_, ?_⟩
  · exact (validateParameter_spec.2.2.2.1 _ _ (JSValue.str "x") "varchar"
      (by decide) (by decide) (by decide)).mpr rfl
  · exact (validateParameter_spec.2.2.2.2.1 _ _ (JSValue.bool true)
      (by decide) (by decide)).mpr (Or.inl rfl)
  · exact validateParameter_spec.2.2.2.2.2 _ _ (JSValue.num JSNum.nan) "geography"
      (by decide)

/-- C8: `test_connection` never throws: whatever the connection flag, the
`connect()` outcome and the probe-query outcome are, it returns an in-band
record with a `connected` flag consistent with `success` and one of the two
fixed messages; on the success path with a non-empty recordset the
`testResult` field is present. -/
theorem testConnection_in_band (isConnected : Bool) (co : Except String Unit)
    (qo : Except String SqlResultSet) :
    ∃ r : MCPHandlers.TestConnectionResult,
      MCPHandlers.testConnection isConnected co qo = Except.ok r ∧
      (r.message = "Database connection is healthy" ∨
        r.message = "Database connection failed") ∧
      (r.success = true ↔ r.connected = true) ∧
      (∀ rs : SqlResultSet, qo = Except.ok rs → rs.recordset ≠ [] →
        r.success = true → r.testResult.isSome = true) := by
  cases isConnected with
  | false =>
    cases co with
    | error e =>
      refine ⟨_, rfl, Or.inr rfl, by simp, ?_⟩
      intro rs h hne hs
      simp at hs
    | ok u =>
      cases qo with
      | ok rs =>
        refine ⟨_, rfl, Or.inl rfl, by simp, ?_⟩
        intro rs' h hne hs
        obtain rfl : rs = rs' := by injection h
        cases hrs : rs.recordset with
        | nil => exact absurd hrs hne
        | cons a tl => simp [MCPHandlers.testConnection, hrs]
      | error e =>
        refine ⟨_, rfl, Or.inr rfl, by simp, ?_⟩
        intro rs h hne hs
        simp at hs
  | true =>
    cases qo with
    | ok rs =>
      refine ⟨_, rfl, Or.inl rfl, by simp, ?_⟩
      intro rs' h hne hs
      obtain rfl : rs = rs' := by injection h
      cases hrs : rs.recordset with
      | nil => exact absurd hrs hne
      | cons a tl => simp [MCPHandlers.testConnection, hrs]
    | error e =>
      refine ⟨_, rfl, Or.inr rfl, by simp, ?_⟩
      intro rs h hne hs
      simp at hs

/-- C8 (witness): both the connection and the query fail, and the result is
still an in-band record. -/
theorem testConnection_in_band_witness :
    ∃ r : MCPHandlers.TestConnectionResult,
      MCPHandlers.testConnection false (Except.error "connection refused")
          (Except.error "no db") = Except.ok r ∧
      (r.message = "Database connection is healthy" ∨
        r.message = "Database connection failed") ∧
      (r.success = true ↔ r.connected = true) ∧
      (∀ rs : SqlResultSet,
        (Except.error "no db" : Except String SqlResultSet) = Except.ok rs →
        rs.recordset ≠ [] → r.success = true → r.testResult.isSome = true) :=
  testConnection_in_band false (Except.error "connection refused") (Except.error "no db")

/-- C9: `connect()` is idempotent: with a connected pool it is a no-op leaving
the instance (in particular its pool handle) unchanged, whatever pool a call
could have created and however the handshake would have gone; and after a
successful `connect()`, a second `connect()` changes nothing — no second pool
is created. -/
theorem connect_idempotent :
    (∀ (inst : DatabaseConnection.Instance) (freshPoolId : Nat)
        (outcome : Except String Unit) (p : PoolState),
        inst.pool = some p → p.connected = true →
        DatabaseConnection.connect inst freshPoolId outcome = (Except.ok (), inst)) ∧
    (∀ (inst : DatabaseConnection.Instance) (f1 f2 : Nat) (o2 : Except String Unit),
        DatabaseConnection.connect
            (DatabaseConnection.connect inst f1 (Except.ok ())).2 f2 o2 =
          (Except.ok (), (DatabaseConnection.connect inst f1 (Except.ok ())).2)) := by
  constructor
  · intro inst f o p hp hc
    unfold DatabaseConnection.connect
    rw [hp]
    simp [hc]
  · intro inst f1 f2 o2
    unfold DatabaseConnection.connect
    by_cases h : (inst.pool.map (fun p => p.connected)).getD false = true
    · simp [h]
    · simp [h]

/-- C9 (witness): an already-connected instance is left untouched even by a
`connect()` whose handshake would have failed. -/
theorem connect_idempotent_witness :
    DatabaseConnection.connect
        { config := sampleConfig, pool := some { id := 3, connected := true } } 5
        (Except.error "handshake failed") =
      (Except.ok (), { config := sampleConfig, pool := some { id := 3, connected := true } }) :=
  connect_idempotent.1 _ 5 (Except.error "handshake failed")
    { id := 3, connected := true } rfl rfl

/-- C10: `getInstance` returns the identical stored instance on every call
after the first, and the configuration passed to a later call is ignored: the
instance keeps the configuration of the first call. -/
theorem getInstance_singleton :
    (∀ (c : DatabaseConfig) (inst : DatabaseConnection.Instance),
        DatabaseConnection.getInstance c (some inst) = (inst, some inst)) ∧
    (∀ c1 c2 : DatabaseConfig,
        (DatabaseConnection.getInstance c2 (DatabaseConnection.getInstance c1 none).2).1 =
          (DatabaseConnection.getInstance c1 none).1 ∧
        (DatabaseConnection.getInstance c2
            (DatabaseConnection.getInstance c1 none).2).1.config = c1) :=
  ⟨fun _ _ => rfl, fun _ _ => ⟨rfl, rfl⟩⟩

end MssqlMcp
